import Mathlib

/-!
# Hash tag board: store queries and ingestion

A verification development over the hash tag store of the server
(`store/sqlstore/hash_tag_store.go`, `store/sqlstore/hashtag_store.go`,
`app/hash_tag.go`, `model/hash_tag.go`, `model/hashtag.go`,
`model/hash_tag_post.go`).

The store code assembles SQL statements with a statement builder and hands
them to the database replica.  The embedding keeps both halves apart:

* the statements are built exactly as the Go code builds them (columns,
  `FROM`, `JOIN`, `WHERE` parts, `ORDER BY`, `LIMIT`), by functions that carry
  the names of the Go functions;
* the replica is a relational state (the tables `hash_tag`, `post`,
  `channel` read by the board, the table `hashtag` written by `SaveHashTag`,
  the tables `HashTag` and `HashTagPost` of `UpdateMultiple`) together with
  failure oracles for reads and for writes, and evaluators that run a built
  statement over the tables.
* a builder is a value: a builder method returns the new builder and leaves
  the one it was called on as it was, so a call whose result the Go code
  does not assign has no effect on the statement.

Go's `error` is `Option Err` (`none` is `nil`), a slice is a `List` (`nil` is
`[]`), a pointer result is an `Option`.

## How the replica reads a statement

* Whether the replica accepts a statement at all is not decided here: it is
  the read oracle `getErr` (the write oracles `execErr`, `updateErr`).  A
  replica that rejects a statement, for instance one whose `ORDER BY` names
  no column of it or one that selects `COUNT(..)` next to a plain column
  without `GROUP BY`, is a replica whose oracle fails on that statement.
  The theorems below hold for every oracle.
* `FROM hash_tag HT JOIN post USING (post_id) JOIN channel USING (channel_id)`
  is the inner join of the three tables.
* The `WHERE` parts are joined by `AND`.  `LIKE` knows the wildcards `%` and
  `_` and the backslash escape.  `sq.NotEq` against a select passes the rows
  whose column differs from every row of that select.
* The statements carry no `GROUP BY`: a statement with a `COUNT(..)` column
  is one group and has exactly one row.
* `ORDER BY` is not evaluated: it changes neither whether a statement has
  rows nor how many, and no row of a statement that carries one reaches a
  caller.
* `LIMIT n` keeps at most `n` rows.
* `Get` on the replica fetches one row: it fails when the read oracle fails
  and when the statement has no row, and otherwise scans the first row into
  the destination it was handed.  `GetCount` and `GetTimed` hand it their
  slice by value, so the slice they return is the empty one they made.
* `Exec` on the replica fails when the bind arguments it is handed are not,
  one by one, the values of the statement's placeholders.  `SaveHashTag`
  hands it the slice of arguments as one argument.
-/

namespace HashTagBoardSpec

/-! ## Strings -/

/-- Go `strings.ToLower`, on the ASCII letters; other characters are left
as they are. -/
def ToLower (s : String) : String :=
  ⟨s.data.map Char.toLower⟩

/-- Splits a character list at every occurrence of the separator character;
`n` separators give `n + 1` pieces. -/
def splitChars (sep : Char) : List Char → List (List Char)
  | [] => [[]]
  | c :: cs =>
    if c = sep then [] :: splitChars sep cs
    else
      match splitChars sep cs with
      | [] => [[c]]
      | p :: ps => (c :: p) :: ps

/-- Go `strings.Split(s, " ")`. -/
def Split (s : String) : List String :=
  (splitChars ' ' s.data).map String.mk

/-- Drops the leading occurrences of a character. -/
def trimLeft (c : Char) : List Char → List Char
  | [] => []
  | d :: ds => if d = c then trimLeft c ds else d :: ds

/-- Go `strings.Trim(s, " ")`: leading and trailing blanks removed. -/
def Trim (s : String) : String :=
  ⟨(trimLeft ' ' (trimLeft ' ' s.data).reverse).reverse⟩

/-! ## Model types (`model/hash_tag.go`) -/

/-- Go `error`, as its message. -/
abbrev Err := String

/-- The part of `model.User` the store reads. -/
structure User where
  Id : String
  deriving DecidableEq, Repr

/-- The part of `model.Post` the store reads. -/
structure Post where
  Id : String
  Hashtags : String := ""
  ChannelId : String := ""
  EditAt : Int := 0
  deriving DecidableEq, Repr

/-- The struct `model.HashTag` of `model/hashtag.go`: the text of the tag,
"minus the hash symbol", and the time of its last use. -/
structure HashTag where
  Text : String
  LastUsed : Int := 0
  deriving DecidableEq, Repr

/-- The struct `model.HashTagPost`: the tag text, the post and the channel
of one association. -/
structure HashTagPost where
  HashTag : String
  PostId : String
  ChannelId : String := ""
  deriving DecidableEq, Repr

/-- The type `model.ChannelType`, a string type in Go. -/
abbrev ChannelType := String

/-- Modelled from the spec: the constant `model.ChannelTypeOpen` is declared
outside the files at hand; it is the type of an open (public) channel. -/
def ChannelTypeOpen : ChannelType := "O"

/-- The struct `model.HashTagCount`. -/
structure HashTagCount where
  HashTag : String
  PostCount : Int
  deriving DecidableEq, Repr

/-- The struct `model.HashTagTimed`. -/
structure HashTagTimed where
  HashTag : String
  When : Int
  deriving DecidableEq, Repr

/-- The struct `model.HashTagBoard`; the zero value has six nil lists. -/
structure HashTagBoard where
  UserRecent : List HashTagTimed := []
  ServerPopular : List HashTagCount := []
  Starting : List HashTagTimed := []
  Containing : List HashTagTimed := []
  StartingUnused : List HashTagCount := []
  ContainingUnused : List HashTagCount := []
  deriving DecidableEq, Repr

/-! ## Statements, as the builder holds them -/

/-- A value bound into a statement or held in a result cell. -/
inductive Value where
  | str (s : String)
  | int (i : Int)
  deriving DecidableEq, Repr

mutual
/-- A `WHERE` part: `sq.Eq`, `sq.Like`, and `sq.NotEq` whose right side is
another select statement. -/
inductive Sqlizer where
  | Eq (column : String) (value : Value)
  | Like (column : String) (pattern : String)
  | NotEq (column : String) (sub : SelectBuilder)
/-- The data of a `sq.SelectBuilder`: result columns, `FROM`, `JOIN`s,
`WHERE` parts, `ORDER BY` parts and `LIMIT`, in that order. -/
inductive SelectBuilder where
  | mk (Columns : List String) (From : String) (Joins : List String)
      (WhereParts : List Sqlizer) (OrderBys : List String) (Limit : Option Nat)
end

/-- The data of a `sq.InsertBuilder`: table, columns, value rows, options. -/
structure InsertBuilder where
  Into : String
  Columns : List String := []
  Values : List (List String) := []
  Options : List String := []
  deriving DecidableEq, Repr

/-- The data of a `sq.UpdateBuilder`: table, `SET` clauses, `WHERE` parts. -/
structure UpdateBuilder where
  Table : String
  SetClauses : List (String × Value) := []
  WhereParts : List Sqlizer := []

/-! ## The replica -/

/-- A row of the tag table (`val`, `post_id`). -/
structure HashTagRow where
  val : String
  post_id : String
  deriving DecidableEq, Repr

/-- A row of the table `post`. -/
structure PostRow where
  post_id : String
  user_id : String
  channel_id : String
  create_at : Int
  deriving DecidableEq, Repr

/-- A row of the table `channel`. -/
structure ChannelRow where
  channel_id : String
  channel_type : ChannelType
  deriving DecidableEq, Repr

/-- The store handle `SqlHashTagStore` with the replica behind it: the tables
the board reads (`hash_tag`, `post`, `channel`), the table `SaveHashTag`
writes (`hashtag`), the tables of `UpdateMultiple` (`HashTag`,
`HashTagPost`), and for each statement whether the replica fails on it. -/
structure SqlHashTagStore where
  hash_tag : List HashTagRow := []
  post : List PostRow := []
  channel : List ChannelRow := []
  hashtag : List HashTagRow := []
  getErr : SelectBuilder → Option Err := fun _ => none
  execErr : InsertBuilder → Option Err := fun _ => none
  HashTag : List HashTag := []
  HashTagPost : List HashTagPost := []
  updateErr : UpdateBuilder → Option Err := fun _ => none

/-- A row of `hash_tag HT JOIN post USING (post_id) JOIN channel USING
(channel_id)`. -/
structure JoinedRow where
  val : String
  post_id : String
  user_id : String
  channel_id : String
  create_at : Int
  channel_type : ChannelType
  deriving DecidableEq, Repr

/-- The rows of the `FROM` and `JOIN` clauses: every tag row with the post
of its `post_id` and the channel of that post's `channel_id`.  Only the
clauses the store code writes are known to the replica. -/
def fromRows (s : SqlHashTagStore) (From : String) (Joins : List String) : List JoinedRow :=
  if From = "hash_tag HT" ∧ Joins = ["post USING (post_id)", "channel USING (channel_id)"] then
    s.hash_tag.flatMap fun h =>
      (s.post.filter fun p => p.post_id = h.post_id).flatMap fun p =>
        (s.channel.filter fun c => c.channel_id = p.channel_id).map fun c =>
          { val := h.val, post_id := h.post_id, user_id := p.user_id,
            channel_id := p.channel_id, create_at := p.create_at,
            channel_type := c.channel_type }
  else []

/-- The value of a column expression on a joined row; `none` for an
expression that names no column of the join. -/
def JoinedRow.column (r : JoinedRow) (expr : String) : Option Value :=
  if expr = "HT.Val" then some (.str r.val)
  else if expr = "LOWER(HT.Val)" then some (.str (ToLower r.val))
  else if expr = "post_id" then some (.str r.post_id)
  else if expr = "post.user_id" then some (.str r.user_id)
  else if expr = "post.create_at" then some (.int r.create_at)
  else if expr = "channel.channel_type" then some (.str r.channel_type)
  else none

/-- Whether some suffix of the text satisfies `f`. -/
def anySuffix (f : List Char → Bool) : List Char → Bool
  | [] => f []
  | t :: ts => f (t :: ts) || anySuffix f ts

/-- SQL `LIKE` on character lists: `%` stands for any run of characters,
`_` for one character, and a backslash makes the next character literal. -/
def likeChars : List Char → List Char → Bool
  | [], text => text.isEmpty
  | p :: ps, text =>
    if p = '%' then anySuffix (likeChars ps) text
    else if p = '_' then
      match text with
      | [] => false
      | _ :: ts => likeChars ps ts
    else if p = '\\' then
      match ps, text with
      | q :: qs, t :: ts => t == q && likeChars qs ts
      | _, _ => false
    else
      match text with
      | [] => false
      | t :: ts => t == p && likeChars ps ts

/-- An output column: the expression and the name it is known by. -/
structure OutColumn where
  expr : String
  name : String
  isCount : Bool
  deriving DecidableEq, Repr

/-- Reads a result column as the store code writes it. -/
def parseColumn (c : String) : OutColumn :=
  if c = "HT.Val" then { expr := "HT.Val", name := "HT.Val", isCount := false }
  else if c = "post.create_at AS when" then { expr := "post.create_at", name := "when", isCount := false }
  else if c = "COUNT(post_id) AS post_count" then { expr := "post_id", name := "post_count", isCount := true }
  else if c = "COUNT(post) AS post_count" then { expr := "post", name := "post_count", isCount := true }
  else { expr := c, name := c, isCount := false }

/-- One result row of a statement without `COUNT`. -/
def projectRow (cols : List OutColumn) (r : JoinedRow) : List (Option Value) :=
  cols.map fun c => r.column c.expr

/-- The one result row of a statement with a `COUNT` column: the statement
has no `GROUP BY`, so the selected rows are one group.  A `COUNT` cell holds
the number of selected rows; the cell of a plain column next to it is not
determined by the statement and holds no value. -/
def aggregateRow (cols : List OutColumn) (rows : List JoinedRow) : List (Option Value) :=
  cols.map fun c => if c.isCount then some (.int (rows.length : Int)) else none

/-- Applies `LIMIT`. -/
def applyLimit (Limit : Option Nat) (rows : List (List (Option Value))) : List (List (Option Value)) :=
  match Limit with
  | some n => rows.take n
  | none => rows

mutual
/-- Whether a joined row passes a `WHERE` part.  `sq.NotEq` against a select
passes the rows whose column differs from every row of that select. -/
def evalWhere (s : SqlHashTagStore) : Sqlizer → JoinedRow → Bool
  | .Eq column value, r => r.column column == some value
  | .Like column pattern, r =>
    match r.column column with
    | some (.str v) => likeChars pattern.data v.data
    | _ => false
  | .NotEq column sub, r =>
    match r.column column with
    | some v => !((evalSelect s sub).any fun row => row.head? == some (some v))
    | none => false
/-- Whether a joined row passes all `WHERE` parts. -/
def evalWheres (s : SqlHashTagStore) : List Sqlizer → JoinedRow → Bool
  | [], _ => true
  | w :: ws, r => evalWhere s w r && evalWheres s ws r
/-- The result rows of a select statement on the replica's tables, up to
their order: `ORDER BY` is not evaluated. -/
def evalSelect (s : SqlHashTagStore) : SelectBuilder → List (List (Option Value))
  | .mk Columns From Joins WhereParts _ Limit =>
    let cols := Columns.map parseColumn
    let rows := (fromRows s From Joins).filter fun r => evalWheres s WhereParts r
    let out :=
      if cols.any (fun c => c.isCount) then [aggregateRow cols rows]
      else rows.map (projectRow cols)
    applyLimit Limit out
end

/-! ## The statement builder (`sq`) -/

/-- `sq.Select(columns...)`. -/
def Select (columns : List String) : SelectBuilder :=
  .mk columns "" [] [] [] none

/-- `SelectBuilder.From`. -/
def SelectBuilder.From : SelectBuilder → String → SelectBuilder
  | .mk c _ j w o l, f => .mk c f j w o l

/-- `SelectBuilder.Join`: one more `JOIN` clause. -/
def SelectBuilder.Join : SelectBuilder → String → SelectBuilder
  | .mk c f j w o l, x => .mk c f (j ++ [x]) w o l

/-- `SelectBuilder.Where`: one more `WHERE` part; the parts are joined by
`AND`. -/
def SelectBuilder.Where : SelectBuilder → Sqlizer → SelectBuilder
  | .mk c f j w o l, x => .mk c f j (w ++ [x]) o l

/-- `SelectBuilder.OrderBy`: one more `ORDER BY` part. -/
def SelectBuilder.OrderBy : SelectBuilder → String → SelectBuilder
  | .mk c f j w o l, x => .mk c f j w (o ++ [x]) l

/-- `SelectBuilder.Limit`. -/
def SelectBuilder.Limit : SelectBuilder → Nat → SelectBuilder
  | .mk c f j w o _, n => .mk c f j w o (some n)

/-- The error of `SelectBuilder.ToSql`: a select needs a result column. -/
def SelectBuilder.ToSql : SelectBuilder → Option Err
  | .mk [] _ _ _ _ _ => some "select statements must have at least one result column"
  | .mk (_ :: _) _ _ _ _ _ => none

/-- The error of `InsertBuilder.ToSql`: an insert needs a table and a row
of values. -/
def InsertBuilder.ToSql (b : InsertBuilder) : Option Err :=
  if b.Into = "" then some "insert statements must specify a table"
  else if b.Values = [] then some "insert statements must have at least one set of values or select clause"
  else none

/-- The bind arguments `InsertBuilder.ToSql` returns: the values of the
rows, one for each placeholder of the statement. -/
def InsertBuilder.Args (b : InsertBuilder) : List String :=
  b.Values.flatten

/-- An argument handed to the replica's `Exec`: one value, or a slice of
values handed over as a single argument. -/
inductive Arg where
  | value (v : String)
  | slice (vs : List String)
  deriving DecidableEq, Repr

/-! ## Pattern helpers of the model package -/

/-- Puts a backslash before the characters `LIKE` reads as wildcards. -/
def escapeLike : List Char → List Char
  | [] => []
  | c :: cs =>
    if c = '%' ∨ c = '_' ∨ c = '\\' then '\\' :: c :: escapeLike cs
    else c :: escapeLike cs

/-- Modelled from the spec: `model.HashTagToString` is declared outside the
files at hand.  The query text becomes the text of a pattern, "escaped before
being used as a pattern so that characters meaningful to a pattern-matching
mechanism (wildcards, etc.) are treated literally". -/
def HashTagToString (q : String) : String :=
  ⟨escapeLike q.data⟩

/-- Modelled from the spec: `model.LikeBegin` is declared outside the files
at hand; the store code documents its result as `LIKE 'query%'` (prefix
match). -/
def LikeBegin (q : String) : String :=
  q ++ "%"

/-- Modelled from the spec: `model.LikeContains` is declared outside the
files at hand; the store code documents its result as `LIKE '%query%'`
(substring match). -/
def LikeContains (q : String) : String :=
  "%" ++ q ++ "%"

/-! ## `store/sqlstore/hash_tag_store.go` -/

/-- The constant `HTV_ALIAS`. -/
def HTV_ALIAS : String := "HT.Val"

/-- `SQLLower`. -/
def SQLLower (s : String) : String :=
  "LOWER(" ++ s ++ ")"

/-- `HashTagValLike`: a `LIKE` on the lowered tag column against the lowered
pattern. -/
def HashTagValLike (s : String) : Sqlizer :=
  .Like (SQLLower HTV_ALIAS) (ToLower s)

/-- `OfUser`: filter the query by post author. -/
def OfUser (stmt : SelectBuilder) (user : User) : SelectBuilder :=
  stmt.Where (.Eq "post.user_id" (.str user.Id))

/-- `InChannelType`: filter the query by channel type. -/
def InChannelType (stmt : SelectBuilder) (channel_type : ChannelType) : SelectBuilder :=
  stmt.Where (.Eq "channel.channel_type" (.str channel_type))

/-- `HashTagQueryBase`: the select all other selects are based on. -/
def HashTagQueryBase (count : Nat) (columns : List String) : SelectBuilder :=
  ((((Select columns).From "hash_tag HT").Join "post USING (post_id)").Join
    "channel USING (channel_id)").Limit count

/-- `HashTagQueryBaseBegin`: the base query with a prefix filter. -/
def HashTagQueryBaseBegin (count : Nat) (beginQuery : String) (columns : List String) : SelectBuilder :=
  let htq := LikeBegin (HashTagToString beginQuery)
  (HashTagQueryBase count columns).Where (HashTagValLike htq)

/-- `HashTagQueryBaseContains`: the base query with a substring filter. -/
def HashTagQueryBaseContains (count : Nat) (beginQuery : String) (columns : List String) : SelectBuilder :=
  let htq := LikeContains (HashTagToString beginQuery)
  (HashTagQueryBase count columns).Where (HashTagValLike htq)

/-- The replica's `Get` on a built statement, with a destination handed
over by value: the error it returns.  It fails when the read oracle fails
and when the statement has no row; the row it scans otherwise stays with the
copy of the destination and does not reach the caller. -/
def SqlHashTagStore.Get (s : SqlHashTagStore) (q : SelectBuilder) : Option Err :=
  match s.getErr q with
  | some e => some e
  | none => if (evalSelect s q).isEmpty then some "sql: no rows in result set" else none

/-- `GetCount`: a count result from the database.  `result` is made empty,
handed to `Get` by value, and returned. -/
def GetCount (s : SqlHashTagStore) (queryBuilder : SelectBuilder) :
    List HashTagCount × Option Err :=
  let result : List HashTagCount := []
  match queryBuilder.ToSql with
  | some err => ([], some err)
  | none =>
    match s.Get queryBuilder with
    | some err => ([], some err)
    | none => (result, none)

/-- `GetTimed`: a timed result from the database.  `result` is made empty,
handed to `Get` by value, and returned. -/
def GetTimed (s : SqlHashTagStore) (queryBuilder : SelectBuilder) :
    List HashTagTimed × Option Err :=
  let result : List HashTagTimed := []
  match queryBuilder.ToSql with
  | some err => ([], some err)
  | none =>
    match s.Get queryBuilder with
    | some err => ([], some err)
    | none => (result, none)

/-- `GetMostUsedTags`. -/
def GetMostUsedTags (s : SqlHashTagStore) (user : User) (count : Nat) :
    List HashTagCount × Option Err :=
  let columns := [HTV_ALIAS, "COUNT(post_id) AS post_count"]
  let query := HashTagQueryBase count columns
  let query := (OfUser query user).OrderBy "post_count"
  GetCount s query

/-- `GetRecentUserHashTags`. -/
def GetRecentUserHashTags (s : SqlHashTagStore) (user : User) (count : Nat) :
    List HashTagTimed × Option Err :=
  let columns := [HTV_ALIAS, "post.create_at AS when"]
  let query := HashTagQueryBase count columns
  let query := (OfUser query user).OrderBy "post_count"
  GetTimed s query

/-- `GetUserHashTagsBegin`. -/
def GetUserHashTagsBegin (s : SqlHashTagStore) (user : User) (hash_tag_query : String)
    (count : Nat) : List HashTagTimed × Option Err :=
  let columns := [HTV_ALIAS, "post.create_at AS when"]
  let query := HashTagQueryBaseBegin count hash_tag_query columns
  let query := (OfUser query user).OrderBy "post_count"
  GetTimed s query

/-- `GetUserHashTagsContains`. -/
def GetUserHashTagsContains (s : SqlHashTagStore) (user : User) (hash_tag_query : String)
    (count : Nat) : List HashTagTimed × Option Err :=
  let columns := [HTV_ALIAS, "post.create_at AS when"]
  let query := HashTagQueryBaseContains count hash_tag_query columns
  let query := (OfUser query user).OrderBy "post_count"
  GetTimed s query

/-- `GetUnusedBase`: `QF` is a query base function. -/
def GetUnusedBase (s : SqlHashTagStore) (QF : Nat → String → List String → SelectBuilder)
    (user : User) (hash_tag_query : String) (count : Nat) : List HashTagCount × Option Err :=
  let columns := [HTV_ALIAS, "COUNT(post) AS post_count"]
  let inner_columns := [HTV_ALIAS]
  let query := (QF count hash_tag_query columns).Where
    (.NotEq HTV_ALIAS (OfUser (HashTagQueryBase count inner_columns) user))
  GetCount s query

/-- `GetUnusedHashTagsBegin`. -/
def GetUnusedHashTagsBegin (s : SqlHashTagStore) (user : User) (hash_tag_query : String)
    (count : Nat) : List HashTagCount × Option Err :=
  GetUnusedBase s HashTagQueryBaseBegin user hash_tag_query count

/-- `GetUnusedHashTagsContain`. -/
def GetUnusedHashTagsContain (s : SqlHashTagStore) (user : User) (hash_tag_query : String)
    (count : Nat) : List HashTagCount × Option Err :=
  GetUnusedBase s HashTagQueryBaseContains user hash_tag_query count

/-- `QueryHashTagBoard`: the board pointer (`none` is `nil`) and the error. -/
def QueryHashTagBoard (s : SqlHashTagStore) (user : User) (hash_tag_query : String)
    (count : Nat) : Option HashTagBoard × Option Err :=
  let board : HashTagBoard := {}
  if hash_tag_query.length = 0 then
    let (user_recent, err) := GetRecentUserHashTags s user count
    let board := { board with UserRecent := user_recent }
    match err with
    | some e => (none, some e)
    | none =>
      let (popular, err) := GetMostUsedTags s user count
      let board := { board with ServerPopular := popular }
      match err with
      | some e => (none, some e)
      | none => (some board, none)
  else
    let (starting, err) := GetUserHashTagsBegin s user hash_tag_query count
    let board := { board with Starting := starting }
    match err with
    | some e => (none, some e)
    | none =>
      let (containing, err) := GetUserHashTagsContains s user hash_tag_query count
      let board := { board with Containing := containing }
      match err with
      | some e => (none, some e)
      | none =>
        let (startingUnused, err) := GetUnusedHashTagsBegin s user hash_tag_query count
        let board := { board with StartingUnused := startingUnused }
        match err with
        | some e => (none, some e)
        | none =>
          let (containingUnused, err) := GetUnusedHashTagsContain s user hash_tag_query count
          let board := { board with ContainingUnused := containingUnused }
          match err with
          | some e => (none, some e)
          | none => (some board, none)

/-- The replica's `Exec` on a built insert.  Modelled from the spec: the
table declarations are outside the files at hand; an association is unique
by tag and post (`hashtag` is keyed by `val`, `post_id`, and `HashTagPost` by
`text`, `post_id`) and a tag is unique by its text (`HashTag` is keyed by
`text`).  With the option `IGNORE` a row whose key is already there is
skipped, without it the statement fails on such a row.  The statement fails
as well when the arguments handed over are not, one by one, the values of
its placeholders. -/
def SqlHashTagStore.Exec (s : SqlHashTagStore) (b : InsertBuilder) (args : List Arg) :
    SqlHashTagStore × Option Err :=
  match s.execErr b with
  | some e => (s, some e)
  | none =>
    if args ≠ b.Args.map Arg.value then
      (s, some "sql: arguments do not match the placeholders")
    else if b.Into = "hashtag" ∧ b.Columns = ["val", "post_id"] then
      b.Values.foldl
        (fun (acc : SqlHashTagStore × Option Err) row =>
          match acc.2, row with
          | none, [v, p] =>
            if (⟨v, p⟩ : HashTagRow) ∈ acc.1.hashtag then
              if "IGNORE" ∈ b.Options then acc else (acc.1, some "duplicate entry")
            else ({ acc.1 with hashtag := acc.1.hashtag ++ [⟨v, p⟩] }, none)
          | none, _ => (acc.1, some "column count does not match value count")
          | some _, _ => acc)
        (s, none)
    else if b.Into = "HashTag" ∧ b.Columns = ["text"] then
      b.Values.foldl
        (fun (acc : SqlHashTagStore × Option Err) row =>
          match acc.2, row with
          | none, [t] =>
            if acc.1.HashTag.any (fun h => h.Text = t) then
              if "IGNORE" ∈ b.Options then acc else (acc.1, some "duplicate entry")
            else ({ acc.1 with HashTag := acc.1.HashTag ++ [{ Text := t }] }, none)
          | none, _ => (acc.1, some "column count does not match value count")
          | some _, _ => acc)
        (s, none)
    else if b.Into = "HashTagPost" ∧ b.Columns = ["post_id", "text"] then
      b.Values.foldl
        (fun (acc : SqlHashTagStore × Option Err) row =>
          match acc.2, row with
          | none, [p, t] =>
            if acc.1.HashTagPost.any (fun a => a.HashTag = t ∧ a.PostId = p) then
              if "IGNORE" ∈ b.Options then acc else (acc.1, some "duplicate entry")
            else
              ({ acc.1 with HashTagPost := acc.1.HashTagPost ++ [{ HashTag := t, PostId := p }] },
                none)
          | none, _ => (acc.1, some "column count does not match value count")
          | some _, _ => acc)
        (s, none)
    else (s, some "unknown table or column")

/-- The insert statement `SaveHashTag` builds for a tag and a post:
`sq.Insert("hashtag").Columns("val", "post_id").Values(strings.ToLower(tag),
post_id).Options("IGNORE")`. -/
def hashtagInsert (hash_tag : String) (post_id : String) : InsertBuilder :=
  { Into := "hashtag", Columns := ["val", "post_id"],
    Values := [[ToLower hash_tag, post_id]], Options := ["IGNORE"] }

/-- `SaveHashTag`: the base function for saving a hash tag.  The result is
the store after the call and the returned error.  `Exec` is handed `args`
itself, not its elements (`Exec(insert_q, args)`), and after it the code
tests `err`, not `err2`. -/
def SaveHashTag (s : SqlHashTagStore) (hash_tag : String) (post_id : String) :
    SqlHashTagStore × Option Err :=
  let insert := hashtagInsert hash_tag post_id
  let err := insert.ToSql
  let args := insert.Args
  if err.isSome then (s, err)
  else
    let (s', err2) := s.Exec insert [Arg.slice args]
    if err.isSome then (s', err2)
    else (s', none)

/-- The loop of `SaveHashTagFromPost` over the split tags. -/
def saveHashTags (s : SqlHashTagStore) (post_id : String) : List String → SqlHashTagStore × Option Err
  | [] => (s, none)
  | hash_tag :: rest =>
    let hash_tag := Trim hash_tag
    match SaveHashTag s hash_tag post_id with
    | (s', some err) => (s', some err)
    | (s', none) => saveHashTags s' post_id rest

/-- `SaveHashTagFromPost`: saves the hash tags of a post. -/
def SaveHashTagFromPost (s : SqlHashTagStore) (post : Post) : SqlHashTagStore × Option Err :=
  let hash_tags := Split post.Hashtags
  saveHashTags s post.Id hash_tags

/-! ## `app/hash_tag.go` -/

/-- The part of `model.AppError` that `NewAppError` fills. -/
structure AppError where
  Where : String
  Id : String
  DetailedError : String
  StatusCode : Nat
  deriving DecidableEq, Repr

/-- `model.NewAppError(where, id, nil, details, status)`. -/
def NewAppError (location id details : String) (status : Nat) : AppError :=
  { Where := location, Id := id, DetailedError := details, StatusCode := status }

/-- `App.QueryHashTag`: the board shown in the autocompletion menu; the
store behind the app is `a`. -/
def QueryHashTag (a : SqlHashTagStore) (user : User) (hash_tag_query : String) (count : Nat) :
    Option HashTagBoard × Option AppError :=
  let (hash_tags, err) := QueryHashTagBoard a user hash_tag_query count
  match err with
  | some e =>
    (none, some (NewAppError "QueryHashTag" "app.hash_tag.query_hash_tag.app_error" e 400))
  | none => (hash_tags, none)


/-! ## `store/sqlstore/hashtag_store.go` -/

/-- `sq.Insert(into)`. -/
def Insert (into : String) : InsertBuilder :=
  { Into := into }

/-- Puts a column with its value into a list ordered by column name. -/
def insertByColumn (x : String × String) : List (String × String) → List (String × String)
  | [] => [x]
  | y :: ys => if x.1 ≤ y.1 then x :: y :: ys else y :: insertByColumn x ys

/-- `InsertBuilder.SetMap`: the columns of the map, ordered by name, and
one row with their values, in place of the columns and values held before. -/
def InsertBuilder.SetMap (b : InsertBuilder) (clauses : List (String × String)) : InsertBuilder :=
  let sorted := clauses.foldr insertByColumn []
  { b with Columns := sorted.map fun c => c.1, Values := [sorted.map fun c => c.2] }

/-- `sq.Update(table)`. -/
def Update (table : String) : UpdateBuilder :=
  { Table := table }

/-- `UpdateBuilder.Set`: one more `SET` clause. -/
def UpdateBuilder.Set (b : UpdateBuilder) (column : String) (value : Value) : UpdateBuilder :=
  { b with SetClauses := b.SetClauses ++ [(column, value)] }

/-- The error of `UpdateBuilder.ToSql`: an update needs a table and a `SET`
clause. -/
def UpdateBuilder.ToSql (b : UpdateBuilder) : Option Err :=
  if b.Table = "" then some "update statements must specify a table"
  else if b.SetClauses.isEmpty then some "update statements must have at least one Set clause"
  else none

/-- Whether a row of `HashTag`, with the association joined to it if there
is one, passes a `WHERE` part. -/
def tagWhere (h : HashTag) (a : Option HashTagPost) : Sqlizer → Bool
  | .Eq column value =>
    if column = "HashTag.Text" then value = .str h.Text
    else if column = "HashTagPost.PostId" then
      match a with
      | some a => value = .str a.PostId
      | none => false
    else false
  | _ => false

/-- The rows of a select of `HashTag.*` on the replica's tables: from
`HashTag` alone, or joined with `HashTagPost` on the tag text. -/
def evalTagSelect (s : SqlHashTagStore) : SelectBuilder → List HashTag
  | .mk _ From Joins WhereParts _ Limit =>
    let rows : List (HashTag × Option HashTagPost) :=
      if From = "HashTag" then
        if Joins = [] then s.HashTag.map fun h => (h, none)
        else if Joins = ["HashTagPost ON HashTag.text=HashTagPost.text"] then
          s.HashTag.flatMap fun h =>
            (s.HashTagPost.filter fun a => a.HashTag = h.Text).map fun a => (h, some a)
        else []
      else []
    let out := (rows.filter fun r => WhereParts.all (tagWhere r.1 r.2)).map fun r => r.1
    match Limit with
    | some n => out.take n
    | none => out

/-- The replica's `Get` into one `HashTag`: its failure, the first row of
the statement, or the error of a statement without rows. -/
def replicaGet (s : SqlHashTagStore) (q : SelectBuilder) : Option HashTag × Option Err :=
  match s.getErr q with
  | some e => (none, some e)
  | none =>
    match evalTagSelect s q with
    | [] => (none, some "sql: no rows in result set")
    | h :: _ => (some h, none)

/-- The replica's `Select` into a `HashTagList`: its failure, or all rows of
the statement. -/
def replicaSelect (s : SqlHashTagStore) (q : SelectBuilder) : List HashTag × Option Err :=
  match s.getErr q with
  | some e => ([], some e)
  | none => (evalTagSelect s q, none)

/-- The replica's `Exec` on a built update: every row of the table that
passes the `WHERE` parts gets the columns of the `SET` clauses. -/
def ExecUpdate (s : SqlHashTagStore) (b : UpdateBuilder) : SqlHashTagStore × Option Err :=
  match s.updateErr b with
  | some e => (s, some e)
  | none =>
    if b.Table = "HashTag" then
      ({ s with
          HashTag := s.HashTag.map fun h =>
            if b.WhereParts.all (tagWhere h none) then
              b.SetClauses.foldl
                (fun (h : HashTag) c =>
                  match c with
                  | ("lastUsed", .int t) => { h with LastUsed := t }
                  | _ => h)
                h
            else h },
        none)
    else (s, some "unknown table")

/-- `SqlHashTagStore.Get(tagText)`: the tag of that text, or no tag and an
error. -/
def Get (s : SqlHashTagStore) (tagText : String) : Option HashTag × Option Err :=
  let query := ((Select ["HashTag.*"]).From "HashTag").Where (.Eq "HashTag.Text" (.str tagText))
  match query.ToSql with
  | some err => (none, some err)
  | none =>
    match replicaGet s query with
    | (_, some err) => (none, some err)
    | (hashTag, none) => (hashTag, none)

/-- `GetPostHashTags`: the texts of the tags of a post, the tags, and the
error. -/
def GetPostHashTags (s : SqlHashTagStore) (post : Post) :
    List String × Option (List HashTag) × Option Err :=
  let query :=
    (((Select ["HashTag.*"]).From "HashTag").Join
      "HashTagPost ON HashTag.text=HashTagPost.text").Where
      (.Eq "HashTagPost.PostId" (.str post.Id))
  match query.ToSql with
  | some err => ([], none, some err)
  | none =>
    match replicaSelect s query with
    | (_, some err) => ([], none, some err)
    | (hashTags, none) => (hashTags.map (fun hashTag => hashTag.Text), some hashTags, none)

/-- Modelled from the spec: the channel store is outside the files at hand.
`Channel().Get(id, false)` returns the channel of that id, or no channel and
an error. -/
def ChannelGet (s : SqlHashTagStore) (id : String) : Option ChannelRow × Option Err :=
  match s.channel.find? fun c => c.channel_id = id with
  | some c => (some c, none)
  | none => (none, some "channel not found")

/-- `errors.Wrapf(err, message)`: the message put before an error; no error
stays no error. -/
def Wrapf (err : Option Err) (message : String) : Option Err :=
  err.map fun e => message ++ ": " ++ e

/-- `utils.StringInSlice`. -/
def StringInSlice (a : String) (slice : List String) : Bool :=
  slice.contains a

/-- `UpdateMultiple`: either update or add hashtags.  The result is the
store after the call, the returned list (`none` is `nil`) and the error.
In the loop the results of `q_insert.SetMap` and `q_htpost.SetMap` are not
assigned, as in the Go code; only `q_update` is assigned. -/
def UpdateMultiple (s : SqlHashTagStore) (tagTexts : List String) (post : Post) :
    SqlHashTagStore × Option (List HashTag) × Option Err :=
  let (post_channel, err) := ChannelGet s post.ChannelId
  match post_channel with
  | none => (s, none, Wrapf err ("failed getting channels with channelId=" ++ post.ChannelId))
  | some post_channel =>
    if post_channel.channel_type ≠ ChannelTypeOpen then
      (s, none, Wrapf err ("post is not public, with PostId=" ++ post.Id))
    else
      let q_update := Update "HashTag"
      let q_insert := Insert "HashTag"
      let q_htpost := Insert "HashTagPost"
      let (raw_tags, _, err) := GetPostHashTags s post
      if err.isSome then (s, none, Wrapf err "UpdateMultiple")
      else
        let q_update := tagTexts.foldl
          (fun q_update tagText =>
            let existing := (Get s tagText).1
            let _ := if existing.isNone then q_insert.SetMap [("text", tagText)] else q_insert
            let _ :=
              if !StringInSlice tagText raw_tags then
                q_htpost.SetMap [("text", tagText), ("post_id", post.Id)]
              else q_htpost
            q_update.Set "lastUsed" (.int post.EditAt))
          q_update
        match q_insert.ToSql with
        | some err => (s, none, some err)
        | none =>
          match s.Exec q_insert (q_insert.Args.map Arg.value) with
          | (s1, some err) => (s1, none, some err)
          | (s1, none) =>
            match q_htpost.ToSql with
            | some err => (s1, none, some err)
            | none =>
              match s1.Exec q_htpost (q_htpost.Args.map Arg.value) with
              | (s2, some err) => (s2, none, some err)
              | (s2, none) =>
                match q_update.ToSql with
                | some err => (s2, none, some err)
                | none =>
                  match ExecUpdate s2 q_update with
                  | (s3, some err) => (s3, none, some err)
                  | (s3, none) => (s3, some [], none)

/-! ## The words of the claims -/

/-- Whether every association of the tag is on a post in a channel that is
not open. -/
def onlyOutsideOpenChannels (s : SqlHashTagStore) (tag : String) : Bool :=
  (fromRows s "hash_tag HT" ["post USING (post_id)", "channel USING (channel_id)"]).all
    fun r => !(r.val == tag) || !(r.channel_type == ChannelTypeOpen)

/-- The spec's words, "tag text starts with the (normalized) query string":
the lowered query is a beginning of the lowered tag. -/
def startsWithQuery (tag q : String) : Prop :=
  (ToLower q).data <+: (ToLower tag).data

/-- The spec's words, "tag text contains the query string anywhere": the
lowered query is a run of characters of the lowered tag. -/
def containsQuery (tag q : String) : Prop :=
  (ToLower q).data <:+: (ToLower tag).data

/-- The acting user has used the tag: a post of the user carries it. -/
def usedBy (s : SqlHashTagStore) (user : User) (tag : String) : Prop :=
  ∃ h ∈ s.hash_tag, ∃ p ∈ s.post, p.post_id = h.post_id ∧ p.user_id = user.Id ∧ h.val = tag

/-! ## Replica states used as concrete inputs -/

/-- One tag, used once, by `author`, in a channel that is not open. -/
def privateOnly : SqlHashTagStore :=
  { hash_tag := [⟨"secret", "p1"⟩],
    post := [⟨"p1", "author", "c1", 1⟩],
    channel := [⟨"c1", "P"⟩] }

/-- One tag, used once, by `u`, in an open channel. -/
def oneTag : SqlHashTagStore :=
  { hash_tag := [⟨"tag1", "p1"⟩],
    post := [⟨"p1", "u", "c1", 3⟩],
    channel := [⟨"c1", ChannelTypeOpen⟩] }

/-- Two tags, both used by `u` in an open channel. -/
def twoTags : SqlHashTagStore :=
  { hash_tag := [⟨"ta", "p1"⟩, ⟨"tb", "p2"⟩],
    post := [⟨"p1", "u", "c1", 1⟩, ⟨"p2", "u", "c1", 2⟩],
    channel := [⟨"c1", ChannelTypeOpen⟩] }

/-- The board of `u` on `twoTags` for the empty query and limit 5: the reads
succeed and return their empty slices. -/
def twoTagsOnHash : HashTagBoard :=
  {}

/-- The board of `u` on `twoTags` for the query `t` and limit 5: the reads
succeed and return their empty slices. -/
def twoTagsOnText : HashTagBoard :=
  {}

/-- Two authors in an open channel: `a` used `alpha` twice, `b` used `beta`
once. -/
def twoAuthors : SqlHashTagStore :=
  { hash_tag := [⟨"alpha", "p1"⟩, ⟨"alpha", "p2"⟩, ⟨"beta", "p3"⟩],
    post := [⟨"p1", "a", "c1", 1⟩, ⟨"p2", "a", "c1", 2⟩, ⟨"p3", "b", "c1", 3⟩],
    channel := [⟨"c1", ChannelTypeOpen⟩] }

/-- The tables of `twoTags` on a replica that fails every read with a
`COUNT` column and serves the others. -/
def countReadsFail : SqlHashTagStore :=
  { twoTags with
    getErr := fun q =>
      match q with
      | .mk c _ _ _ _ _ =>
        if c = [HTV_ALIAS, "post.create_at AS when"] then none else some "read failed" }

/-- An empty replica that fails every write. -/
def writesFail : SqlHashTagStore :=
  { execErr := fun _ => some "connection refused" }

/-- An open channel `c1`, the tags `go` and `rust` last used at time 1, and
`go` on the post `p0`, in the tables of both ingestion paths. -/
def tagged : SqlHashTagStore :=
  { channel := [⟨"c1", ChannelTypeOpen⟩],
    hashtag := [⟨"#go", "p0"⟩],
    HashTag := [{ Text := "go", LastUsed := 1 }, { Text := "rust", LastUsed := 1 }],
    HashTagPost := [{ HashTag := "go", PostId := "p0" }] }

/-- A post in the open channel `c1`, edited at time 5, that names one tag
twice. -/
def editedPost : Post :=
  { Id := "p1", Hashtags := "#Go #go", ChannelId := "c1", EditAt := 5 }

/-- The board of six empty lists. -/
def emptyBoard : HashTagBoard :=
  {}

/-- A replica without rows whose oracles never fail. -/
def emptyStore : SqlHashTagStore :=
  {}

/-! ## Lemmas on the reads and on the board -/

/-- `GetCount` returns the empty slice it made, whatever the replica holds. -/
theorem GetCount_fst (s : SqlHashTagStore) (q : SelectBuilder) : (GetCount s q).1 = [] := by
  unfold GetCount
  split
  · rfl
  · split <;> rfl

/-- `GetTimed` returns the empty slice it made, whatever the replica holds. -/
theorem GetTimed_fst (s : SqlHashTagStore) (q : SelectBuilder) : (GetTimed s q).1 = [] := by
  unfold GetTimed
  split
  · rfl
  · split <;> rfl

theorem GetMostUsedTags_fst (s : SqlHashTagStore) (user : User) (n : Nat) :
    (GetMostUsedTags s user n).1 = [] :=
  GetCount_fst s _

theorem GetRecentUserHashTags_fst (s : SqlHashTagStore) (user : User) (n : Nat) :
    (GetRecentUserHashTags s user n).1 = [] :=
  GetTimed_fst s _

theorem GetUserHashTagsBegin_fst (s : SqlHashTagStore) (user : User) (q : String) (n : Nat) :
    (GetUserHashTagsBegin s user q n).1 = [] :=
  GetTimed_fst s _

theorem GetUserHashTagsContains_fst (s : SqlHashTagStore) (user : User) (q : String) (n : Nat) :
    (GetUserHashTagsContains s user q n).1 = [] :=
  GetTimed_fst s _

theorem GetUnusedHashTagsBegin_fst (s : SqlHashTagStore) (user : User) (q : String) (n : Nat) :
    (GetUnusedHashTagsBegin s user q n).1 = [] :=
  GetCount_fst s _

theorem GetUnusedHashTagsContain_fst (s : SqlHashTagStore) (user : User) (q : String) (n : Nat) :
    (GetUnusedHashTagsContain s user q n).1 = [] :=
  GetCount_fst s _

/-- A statement with `LIMIT 0` has no row. -/
theorem evalSelect_limit_zero (s : SqlHashTagStore) (c : List String) (f : String)
    (j : List String) (w : List Sqlizer) (o : List String) :
    evalSelect s (.mk c f j w o (some 0)) = [] := by
  rw [evalSelect]
  simp [applyLimit]

/-- `Get` fails on a statement with `LIMIT 0`. -/
theorem Get_limit_zero (s : SqlHashTagStore) (c : List String) (f : String)
    (j : List String) (w : List Sqlizer) (o : List String) :
    s.Get (.mk c f j w o (some 0)) ≠ none := by
  unfold SqlHashTagStore.Get
  split
  · simp
  · simp [evalSelect_limit_zero]

theorem GetTimed_limit_zero (s : SqlHashTagStore) (c : List String) (f : String)
    (j : List String) (w : List Sqlizer) (o : List String) :
    (GetTimed s (.mk c f j w o (some 0))).2 ≠ none := by
  unfold GetTimed
  split
  · simp
  · split
    · simp
    · rename_i h
      exact absurd h (Get_limit_zero s c f j w o)

theorem length_eq_zero_iff (q : String) : q.length = 0 ↔ q = "" := by
  cases q with
  | mk d =>
    constructor
    · intro h
      have hd : d = [] := List.length_eq_zero.mp h
      subst hd
      rfl
    · intro h
      rw [h]
      rfl

/-- The board on the bare hash sign: two reads, one after the other. -/
theorem QueryHashTagBoard_onHash (s : SqlHashTagStore) (user : User) (n : Nat) :
    QueryHashTagBoard s user "" n =
      match (GetRecentUserHashTags s user n).2 with
      | some e => (none, some e)
      | none =>
        match (GetMostUsedTags s user n).2 with
        | some e => (none, some e)
        | none =>
          (some { UserRecent := (GetRecentUserHashTags s user n).1,
                  ServerPopular := (GetMostUsedTags s user n).1 }, none) := by
  unfold QueryHashTagBoard
  have h0 : ("" : String).length = 0 := rfl
  simp only [h0, if_true]

/-- The board on a typed query: four reads, one after the other. -/
theorem QueryHashTagBoard_onText (s : SqlHashTagStore) (user : User) (q : String) (n : Nat)
    (hq : q ≠ "") :
    QueryHashTagBoard s user q n =
      match (GetUserHashTagsBegin s user q n).2 with
      | some e => (none, some e)
      | none =>
        match (GetUserHashTagsContains s user q n).2 with
        | some e => (none, some e)
        | none =>
          match (GetUnusedHashTagsBegin s user q n).2 with
          | some e => (none, some e)
          | none =>
            match (GetUnusedHashTagsContain s user q n).2 with
            | some e => (none, some e)
            | none =>
              (some { Starting := (GetUserHashTagsBegin s user q n).1,
                      Containing := (GetUserHashTagsContains s user q n).1,
                      StartingUnused := (GetUnusedHashTagsBegin s user q n).1,
                      ContainingUnused := (GetUnusedHashTagsContain s user q n).1 }, none) := by
  unfold QueryHashTagBoard
  have h0 : ¬ q.length = 0 := fun h => hq ((length_eq_zero_iff q).mp h)
  simp only [h0, if_false]

/-- The store call returns a board or an error, never both and never
neither. -/
theorem QueryHashTagBoard_board_xor_error (s : SqlHashTagStore) (user : User) (q : String)
    (n : Nat) :
    (QueryHashTagBoard s user q n).1 = none ↔ (QueryHashTagBoard s user q n).2 ≠ none := by
  by_cases hq : q = ""
  · subst hq
    rw [QueryHashTagBoard_onHash]
    rcases (GetRecentUserHashTags s user n).2 with _ | e1
    · rcases (GetMostUsedTags s user n).2 with _ | e2 <;> simp
    · simp
  · rw [QueryHashTagBoard_onText s user q n hq]
    rcases (GetUserHashTagsBegin s user q n).2 with _ | e1
    · rcases (GetUserHashTagsContains s user q n).2 with _ | e2
      · rcases (GetUnusedHashTagsBegin s user q n).2 with _ | e3
        · rcases (GetUnusedHashTagsContain s user q n).2 with _ | e4 <;> simp
        · simp
      · simp
    · simp

theorem QueryHashTagBoard_onHash_ok (s : SqlHashTagStore) (user : User) (n : Nat) :
    ((QueryHashTagBoard s user "" n).2 = none ↔
        (GetRecentUserHashTags s user n).2 = none ∧ (GetMostUsedTags s user n).2 = none) ∧
    ((QueryHashTagBoard s user "" n).2 = none →
        (QueryHashTagBoard s user "" n).1 =
          some { UserRecent := (GetRecentUserHashTags s user n).1,
                 ServerPopular := (GetMostUsedTags s user n).1 }) := by
  rw [QueryHashTagBoard_onHash]
  rcases (GetRecentUserHashTags s user n) with ⟨l1, _ | e1⟩
  · rcases (GetMostUsedTags s user n) with ⟨l2, _ | e2⟩ <;> simp
  · simp

theorem QueryHashTagBoard_onText_ok (s : SqlHashTagStore) (user : User) (q : String) (n : Nat)
    (hq : q ≠ "") :
    ((QueryHashTagBoard s user q n).2 = none ↔
        (GetUserHashTagsBegin s user q n).2 = none ∧
        (GetUserHashTagsContains s user q n).2 = none ∧
        (GetUnusedHashTagsBegin s user q n).2 = none ∧
        (GetUnusedHashTagsContain s user q n).2 = none) ∧
    ((QueryHashTagBoard s user q n).2 = none →
        (QueryHashTagBoard s user q n).1 =
          some { Starting := (GetUserHashTagsBegin s user q n).1,
                 Containing := (GetUserHashTagsContains s user q n).1,
                 StartingUnused := (GetUnusedHashTagsBegin s user q n).1,
                 ContainingUnused := (GetUnusedHashTagsContain s user q n).1 }) := by
  rw [QueryHashTagBoard_onText s user q n hq]
  rcases (GetUserHashTagsBegin s user q n) with ⟨l1, _ | e1⟩
  · rcases (GetUserHashTagsContains s user q n) with ⟨l2, _ | e2⟩
    · rcases (GetUnusedHashTagsBegin s user q n) with ⟨l3, _ | e3⟩
      · rcases (GetUnusedHashTagsContain s user q n) with ⟨l4, _ | e4⟩ <;> simp
      · simp
    · simp
  · simp

theorem QueryHashTag_of_store (a : SqlHashTagStore) (user : User) (q : String) (n : Nat) :
    (QueryHashTag a user q n).1 = (QueryHashTagBoard a user q n).1 ∧
    ((QueryHashTag a user q n).2 = none ↔ (QueryHashTagBoard a user q n).2 = none) := by
  have hx := QueryHashTagBoard_board_xor_error a user q n
  unfold QueryHashTag
  rcases hr : QueryHashTagBoard a user q n with ⟨b, _ | e⟩
  · simp
  · rw [hr] at hx
    have hb : b = none := hx.mpr (by simp)
    simp [hb]

/-- Every list of a returned board is empty: each read returns the empty
slice it made. -/
theorem QueryHashTagBoard_board_empty (s : SqlHashTagStore) (user : User) (q : String) (n : Nat)
    (b : HashTagBoard) (hb : (QueryHashTagBoard s user q n).1 = some b) : b = {} := by
  have hx := QueryHashTagBoard_board_xor_error s user q n
  have herr : (QueryHashTagBoard s user q n).2 = none := by
    by_contra hne
    rw [hx.mpr hne] at hb
    exact Option.noConfusion hb
  by_cases hq : q = ""
  · subst hq
    have hboard := (QueryHashTagBoard_onHash_ok s user n).2 herr
    rw [hboard, GetRecentUserHashTags_fst, GetMostUsedTags_fst] at hb
    exact (Option.some.inj hb).symm
  · have hboard := (QueryHashTagBoard_onText_ok s user q n hq).2 herr
    rw [hboard, GetUserHashTagsBegin_fst, GetUserHashTagsContains_fst,
      GetUnusedHashTagsBegin_fst, GetUnusedHashTagsContain_fst] at hb
    exact (Option.some.inj hb).symm

/-- With the limit 0 the first read fails, so no board is returned. -/
theorem QueryHashTagBoard_limit_zero (s : SqlHashTagStore) (user : User) (q : String) :
    (QueryHashTagBoard s user q 0).1 = none ∧ (QueryHashTagBoard s user q 0).2 ≠ none := by
  have hx := QueryHashTagBoard_board_xor_error s user q 0
  have herr : (QueryHashTagBoard s user q 0).2 ≠ none := by
    intro h
    by_cases hq : q = ""
    · subst hq
      have h1 := ((QueryHashTagBoard_onHash_ok s user 0).1.mp h).1
      exact GetTimed_limit_zero s _ _ _ _ _ h1
    · have h1 := ((QueryHashTagBoard_onText_ok s user q 0 hq).1.mp h).1
      exact GetTimed_limit_zero s _ _ _ _ _ h1
  exact ⟨hx.mpr herr, herr⟩

/-! ## Lemmas on ingestion -/

/-- `SaveHashTag` leaves the store as it is and returns no error: `Exec`
fails, on the write oracle or on the arguments, and its error is dropped. -/
theorem SaveHashTag_eq (s : SqlHashTagStore) (t p : String) : SaveHashTag s t p = (s, none) := by
  unfold SaveHashTag
  simp only [InsertBuilder.ToSql, SqlHashTagStore.Exec, hashtagInsert, InsertBuilder.Args]
  cases h : s.execErr
      { Into := "hashtag", Columns := ["val", "post_id"], Values := [[ToLower t, p]],
        Options := ["IGNORE"] } with
  | some e => simp [h]
  | none => simp [h]

theorem saveHashTags_eq (s : SqlHashTagStore) (p : String) (ts : List String) :
    saveHashTags s p ts = (s, none) := by
  induction ts with
  | nil => rfl
  | cons t ts ih =>
    rw [saveHashTags, SaveHashTag_eq]
    exact ih

theorem SaveHashTagFromPost_eq (s : SqlHashTagStore) (post : Post) :
    SaveHashTagFromPost s post = (s, none) :=
  saveHashTags_eq s post.Id (Split post.Hashtags)

/-- `UpdateMultiple` returns before its first write: the insert statement
it built has no values. -/
theorem UpdateMultiple_store (s : SqlHashTagStore) (tagTexts : List String) (post : Post) :
    (UpdateMultiple s tagTexts post).1 = s := by
  unfold UpdateMultiple
  rcases ChannelGet s post.ChannelId with ⟨_ | c, err⟩
  · rfl
  · simp only
    split
    · rfl
    · rcases GetPostHashTags s post with ⟨raw, l, _ | e⟩
      · rfl
      · rfl

/-! ## The claims -/

/-- C1: no tag is in any of the six lists of a returned board, so none
whose associations are all on posts in channels that are not open is.  Every
read returns the empty slice it handed to `Get` by value. -/
theorem QueryHashTagBoard_no_private_tag (s : SqlHashTagStore) (user : User) (q : String)
    (n : Nat) (b : HashTagBoard) (h : (QueryHashTagBoard s user q n).1 = some b)
    (tag : String) :
    tag ∉ b.UserRecent.map (fun t => t.HashTag) ∧
    tag ∉ b.ServerPopular.map (fun c => c.HashTag) ∧
    tag ∉ b.Starting.map (fun t => t.HashTag) ∧
    tag ∉ b.Containing.map (fun t => t.HashTag) ∧
    tag ∉ b.StartingUnused.map (fun c => c.HashTag) ∧
    tag ∉ b.ContainingUnused.map (fun c => c.HashTag) := by
  have hb := QueryHashTagBoard_board_empty s user q n b h
  subst hb
  simp

/-- C1, witness: on `privateOnly` the tag `secret` is used only in a channel
that is not open; the board of its author is returned and lists it
nowhere. -/
theorem QueryHashTagBoard_no_private_tag_witness :
    onlyOutsideOpenChannels privateOnly "secret" = true ∧
    (QueryHashTagBoard privateOnly ⟨"author"⟩ "" 10).1 = some emptyBoard ∧
    ("secret" ∉ emptyBoard.UserRecent.map (fun t => t.HashTag) ∧
      "secret" ∉ emptyBoard.ServerPopular.map (fun c => c.HashTag) ∧
      "secret" ∉ emptyBoard.Starting.map (fun t => t.HashTag) ∧
      "secret" ∉ emptyBoard.Containing.map (fun t => t.HashTag) ∧
      "secret" ∉ emptyBoard.StartingUnused.map (fun c => c.HashTag) ∧
      "secret" ∉ emptyBoard.ContainingUnused.map (fun c => c.HashTag)) :=
  ⟨by decide, by decide,
    QueryHashTagBoard_no_private_tag privateOnly ⟨"author"⟩ "" 10 emptyBoard (by decide)
      "secret"⟩

/-- C2: when `QueryHashTagBoard` returns a board, an empty query leaves
`Starting`, `Containing`, `StartingUnused` and `ContainingUnused` empty, and a
non-empty query leaves `UserRecent` and `ServerPopular` empty. -/
theorem QueryHashTagBoard_mode_lists (s : SqlHashTagStore) (user : User) (q : String) (n : Nat)
    (b : HashTagBoard) (h : (QueryHashTagBoard s user q n).1 = some b) :
    (q = "" → b.Starting = [] ∧ b.Containing = [] ∧ b.StartingUnused = [] ∧
        b.ContainingUnused = []) ∧
    (q ≠ "" → b.UserRecent = [] ∧ b.ServerPopular = []) := by
  constructor
  · intro hq
    subst hq
    rw [QueryHashTagBoard_onHash] at h
    split at h
    · simp at h
    · split at h
      · simp at h
      · simp only [Option.some.injEq] at h
        subst h
        exact ⟨rfl, rfl, rfl, rfl⟩
  · intro hq
    rw [QueryHashTagBoard_onText s user q n hq] at h
    split at h
    · simp at h
    · split at h
      · simp at h
      · split at h
        · simp at h
        · split at h
          · simp at h
          · simp only [Option.some.injEq] at h
            subst h
            exact ⟨rfl, rfl⟩

/-- C2, witness: the boards of `u` on `twoTags`, for the empty query and for
the query `t`. -/
theorem QueryHashTagBoard_mode_lists_witness :
    ((QueryHashTagBoard twoTags ⟨"u"⟩ "" 5).1 = some twoTagsOnHash ∧
      twoTagsOnHash.Starting = [] ∧ twoTagsOnHash.Containing = [] ∧
      twoTagsOnHash.StartingUnused = [] ∧ twoTagsOnHash.ContainingUnused = []) ∧
    ((QueryHashTagBoard twoTags ⟨"u"⟩ "t" 5).1 = some twoTagsOnText ∧
      twoTagsOnText.UserRecent = [] ∧ twoTagsOnText.ServerPopular = []) :=
  ⟨⟨by decide,
    (QueryHashTagBoard_mode_lists twoTags ⟨"u"⟩ "" 5 twoTagsOnHash (by decide)).1 rfl⟩,
   ⟨by decide,
    (QueryHashTagBoard_mode_lists twoTags ⟨"u"⟩ "t" 5 twoTagsOnText (by decide)).2
      (by decide)⟩⟩

/-- C3: `QueryHashTagBoard` returns a board or an error and never both; on an
empty query it returns a board exactly when both applicable reads succeed, on
a non-empty query exactly when all four do, and the board then holds the
results of those reads; `App.QueryHashTag` returns the same board and an
error exactly when the store call returned one. -/
theorem QueryHashTagBoard_all_or_nothing (s : SqlHashTagStore) (user : User) (q : String)
    (n : Nat) :
    ((QueryHashTagBoard s user q n).1 = none ↔ (QueryHashTagBoard s user q n).2 ≠ none) ∧
    (q = "" →
      ((QueryHashTagBoard s user q n).2 = none ↔
          (GetRecentUserHashTags s user n).2 = none ∧ (GetMostUsedTags s user n).2 = none) ∧
      ((QueryHashTagBoard s user q n).2 = none →
          (QueryHashTagBoard s user q n).1 =
            some { UserRecent := (GetRecentUserHashTags s user n).1,
                   ServerPopular := (GetMostUsedTags s user n).1 })) ∧
    (q ≠ "" →
      ((QueryHashTagBoard s user q n).2 = none ↔
          (GetUserHashTagsBegin s user q n).2 = none ∧
          (GetUserHashTagsContains s user q n).2 = none ∧
          (GetUnusedHashTagsBegin s user q n).2 = none ∧
          (GetUnusedHashTagsContain s user q n).2 = none) ∧
      ((QueryHashTagBoard s user q n).2 = none →
          (QueryHashTagBoard s user q n).1 =
            some { Starting := (GetUserHashTagsBegin s user q n).1,
                   Containing := (GetUserHashTagsContains s user q n).1,
                   StartingUnused := (GetUnusedHashTagsBegin s user q n).1,
                   ContainingUnused := (GetUnusedHashTagsContain s user q n).1 })) ∧
    (QueryHashTag s user q n).1 = (QueryHashTagBoard s user q n).1 ∧
    ((QueryHashTag s user q n).2 = none ↔ (QueryHashTagBoard s user q n).2 = none) := by
  refine ⟨QueryHashTagBoard_board_xor_error s user q n, ?_, ?_, QueryHashTag_of_store s user q n⟩
  · intro hq
    subst hq
    exact QueryHashTagBoard_onHash_ok s user n
  · intro hq
    exact QueryHashTagBoard_onText_ok s user q n hq

/-- C3, witness: on `countReadsFail` the second read of the empty query and
the third read of the query `t` fail, and no board is returned; on `twoTags`
all four reads of the query `t` succeed and the board is returned. -/
theorem QueryHashTagBoard_all_or_nothing_witness :
    ((GetMostUsedTags countReadsFail ⟨"u"⟩ 5).2 = some "read failed" ∧
      ¬ (QueryHashTagBoard countReadsFail ⟨"u"⟩ "" 5).2 = none ∧
      (QueryHashTagBoard countReadsFail ⟨"u"⟩ "" 5).1 = none) ∧
    ((GetUnusedHashTagsBegin countReadsFail ⟨"u"⟩ "t" 5).2 = some "read failed" ∧
      ¬ (QueryHashTagBoard countReadsFail ⟨"u"⟩ "t" 5).2 = none ∧
      (QueryHashTag countReadsFail ⟨"u"⟩ "t" 5).1 = none) ∧
    ((QueryHashTagBoard twoTags ⟨"u"⟩ "t" 5).2 = none ∧
      (QueryHashTagBoard twoTags ⟨"u"⟩ "t" 5).1 =
        some { Starting := (GetUserHashTagsBegin twoTags ⟨"u"⟩ "t" 5).1,
               Containing := (GetUserHashTagsContains twoTags ⟨"u"⟩ "t" 5).1,
               StartingUnused := (GetUnusedHashTagsBegin twoTags ⟨"u"⟩ "t" 5).1,
               ContainingUnused := (GetUnusedHashTagsContain twoTags ⟨"u"⟩ "t" 5).1 }) :=
  have hA := QueryHashTagBoard_all_or_nothing countReadsFail ⟨"u"⟩ "" 5
  have hB := QueryHashTagBoard_all_or_nothing countReadsFail ⟨"u"⟩ "t" 5
  have hC := QueryHashTagBoard_all_or_nothing twoTags ⟨"u"⟩ "t" 5
  have hAerr : ¬ (QueryHashTagBoard countReadsFail ⟨"u"⟩ "" 5).2 = none :=
    fun h => absurd (((hA.2.1 rfl).1.mp h).2) (by decide)
  have hBerr : ¬ (QueryHashTagBoard countReadsFail ⟨"u"⟩ "t" 5).2 = none :=
    fun h => absurd (((hB.2.2.1 (by decide)).1.mp h).2.2.1) (by decide)
  have hCok : (QueryHashTagBoard twoTags ⟨"u"⟩ "t" 5).2 = none :=
    ((hC.2.2.1 (by decide)).1).mpr (by decide)
  ⟨⟨by decide, hAerr, hA.1.mpr hAerr⟩,
   ⟨by decide, hBerr, hB.2.2.2.1.trans (hB.1.mpr hBerr)⟩,
   ⟨hCok, (hC.2.2.1 (by decide)).2 hCok⟩⟩

/-- C4: in a returned board no tag is both in `Starting` and in
`Containing`, and every tag in `Containing` contains the query and does not
start with it.  Both lists are the empty slices the reads made. -/
theorem QueryHashTagBoard_starting_containing (s : SqlHashTagStore) (user : User) (q : String)
    (n : Nat) (b : HashTagBoard) (h : (QueryHashTagBoard s user q n).1 = some b) :
    (∀ tag, tag ∈ b.Starting.map (fun t => t.HashTag) →
      tag ∉ b.Containing.map (fun t => t.HashTag)) ∧
    (∀ t ∈ b.Containing, containsQuery t.HashTag q ∧ ¬ startsWithQuery t.HashTag q) := by
  have hb := QueryHashTagBoard_board_empty s user q n b h
  subst hb
  simp

/-- C4, witness: `u` used `tag1` and asks for `tag`; the board is returned
and `Starting` and `Containing` share no tag. -/
theorem QueryHashTagBoard_starting_containing_witness :
    (QueryHashTagBoard oneTag ⟨"u"⟩ "tag" 10).1 = some emptyBoard ∧
    ((∀ tag, tag ∈ emptyBoard.Starting.map (fun t => t.HashTag) →
        tag ∉ emptyBoard.Containing.map (fun t => t.HashTag)) ∧
      (∀ t ∈ emptyBoard.Containing,
        containsQuery t.HashTag "tag" ∧ ¬ startsWithQuery t.HashTag "tag")) :=
  ⟨by decide,
    QueryHashTagBoard_starting_containing oneTag ⟨"u"⟩ "tag" 10 emptyBoard (by decide)⟩

/-- C5: in a returned board no tag of `StartingUnused` or `ContainingUnused`
is a tag the acting user has used.  Both lists are the empty slices the
reads made. -/
theorem QueryHashTagBoard_unused_lists (s : SqlHashTagStore) (user : User) (q : String)
    (n : Nat) (b : HashTagBoard) (h : (QueryHashTagBoard s user q n).1 = some b) :
    ∀ c, c ∈ b.StartingUnused ∨ c ∈ b.ContainingUnused → ¬ usedBy s user c.HashTag := by
  have hb := QueryHashTagBoard_board_empty s user q n b h
  subst hb
  simp

/-- C5, witness: `u` used two tags and asks for `t` with limit 1; the board
is returned and its unused lists hold no tag of `u`. -/
theorem QueryHashTagBoard_unused_lists_witness :
    (QueryHashTagBoard twoTags ⟨"u"⟩ "t" 1).1 = some emptyBoard ∧
    (∀ c, c ∈ emptyBoard.StartingUnused ∨ c ∈ emptyBoard.ContainingUnused →
      ¬ usedBy twoTags ⟨"u"⟩ c.HashTag) :=
  ⟨by decide, QueryHashTagBoard_unused_lists twoTags ⟨"u"⟩ "t" 1 emptyBoard (by decide)⟩

/-- C6: for one store state and one limit `GetMostUsedTags` returns the
same list for every acting user, and so the boards of two users on the empty
query have the same `ServerPopular`.  The list is the empty slice the read
made, for every user. -/
theorem GetMostUsedTags_same_for_every_user (s : SqlHashTagStore) (n : Nat) (u1 u2 : User) :
    (GetMostUsedTags s u1 n).1 = (GetMostUsedTags s u2 n).1 ∧
    (∀ b1 b2, (QueryHashTagBoard s u1 "" n).1 = some b1 →
      (QueryHashTagBoard s u2 "" n).1 = some b2 → b1.ServerPopular = b2.ServerPopular) := by
  constructor
  · rw [GetMostUsedTags_fst, GetMostUsedTags_fst]
  · intro b1 b2 h1 h2
    rw [QueryHashTagBoard_board_empty s u1 "" n b1 h1,
      QueryHashTagBoard_board_empty s u2 "" n b2 h2]

/-- C6, witness: on `twoAuthors` the boards of `a` and of `b` are returned
and have the same `ServerPopular`. -/
theorem GetMostUsedTags_same_for_every_user_witness :
    (QueryHashTagBoard twoAuthors ⟨"a"⟩ "" 10).1 = some emptyBoard ∧
    (QueryHashTagBoard twoAuthors ⟨"b"⟩ "" 10).1 = some emptyBoard ∧
    emptyBoard.ServerPopular = emptyBoard.ServerPopular :=
  ⟨by decide, by decide,
    (GetMostUsedTags_same_for_every_user twoAuthors 10 ⟨"a"⟩ ⟨"b"⟩).2 emptyBoard emptyBoard
      (by decide) (by decide)⟩

/-- C7: in the list `GetMostUsedTags` returns each entry's `PostCount` is at
least the next entry's.  The list is the empty slice the read made. -/
theorem GetMostUsedTags_non_increasing (s : SqlHashTagStore) (user : User) (n : Nat) :
    List.Chain' (fun x y : HashTagCount => y.PostCount ≤ x.PostCount)
      (GetMostUsedTags s user n).1 := by
  rw [GetMostUsedTags_fst]
  exact List.chain'_nil

/-- C8: in the list `GetRecentUserHashTags` returns each entry's `When` is
at least the next entry's.  The list is the empty slice the read made. -/
theorem GetRecentUserHashTags_recent_first (s : SqlHashTagStore) (user : User) (n : Nat) :
    List.Chain' (fun x y : HashTagTimed => y.When ≤ x.When)
      (GetRecentUserHashTags s user n).1 := by
  rw [GetRecentUserHashTags_fst]
  exact List.chain'_nil

/-- C9, at a failing input: with the limit 0 `QueryHashTagBoard` returns no
board and an error, on `twoTags` for the empty query and for the query `t`,
and on every other store: the first statement has `LIMIT 0`, so it has no
row and `Get` fails on it. -/
theorem QueryHashTagBoard_no_board_at_limit_zero :
    ((QueryHashTagBoard twoTags ⟨"u"⟩ "" 0).1 = none ∧
      (QueryHashTagBoard twoTags ⟨"u"⟩ "" 0).2.isSome = true) ∧
    ((QueryHashTagBoard twoTags ⟨"u"⟩ "t" 0).1 = none ∧
      (QueryHashTagBoard twoTags ⟨"u"⟩ "t" 0).2.isSome = true) ∧
    (∀ (s : SqlHashTagStore) (user : User) (q : String),
      (QueryHashTagBoard s user q 0).1 = none ∧ (QueryHashTagBoard s user q 0).2 ≠ none) :=
  ⟨by decide, by decide, QueryHashTagBoard_limit_zero⟩

/-- C10, at a failing input: the replica fails the insert, `SaveHashTag`
returns no error, and so does `SaveHashTagFromPost` for a post with two
tags; nothing was written. -/
theorem SaveHashTag_swallows_exec_error :
    writesFail.execErr
        { Into := "hashtag", Columns := ["val", "post_id"], Values := [["go", "p1"]],
          Options := ["IGNORE"] } = some "connection refused" ∧
    (SaveHashTag writesFail "Go" "p1").2 = none ∧
    (SaveHashTag writesFail "Go" "p1").1.hashtag = [] ∧
    (SaveHashTagFromPost writesFail { Id := "p1", Hashtags := "#go #lean" }).2 = none ∧
    (SaveHashTagFromPost writesFail { Id := "p1", Hashtags := "#go #lean" }).1.hashtag = [] := by
  decide

/-- C11: indexing a post a second time changes nothing, because indexing
changes nothing: `SaveHashTagFromPost` and `UpdateMultiple` leave the store
as it is, so the store after two calls is the store after one, and the
associations stay one per tag and post. -/
theorem indexing_twice_eq_once (s : SqlHashTagStore) (post : Post) (tagTexts : List String) :
    (SaveHashTagFromPost s post).1 = s ∧
    (UpdateMultiple s tagTexts post).1 = s ∧
    (SaveHashTagFromPost (SaveHashTagFromPost s post).1 post).1 = (SaveHashTagFromPost s post).1 ∧
    (UpdateMultiple (UpdateMultiple s tagTexts post).1 tagTexts post).1 =
      (UpdateMultiple s tagTexts post).1 ∧
    (s.hashtag.Nodup →
      (SaveHashTagFromPost (SaveHashTagFromPost s post).1 post).1.hashtag.Nodup) ∧
    ((s.HashTagPost.map fun a => (a.HashTag, a.PostId)).Nodup →
      ((UpdateMultiple (UpdateMultiple s tagTexts post).1 tagTexts post).1.HashTagPost.map
        fun a => (a.HashTag, a.PostId)).Nodup) := by
  refine ⟨?_, ?_, ?_, ?_, ?_, ?_⟩
  · rw [SaveHashTagFromPost_eq]
  · exact UpdateMultiple_store s tagTexts post
  · rw [SaveHashTagFromPost_eq, SaveHashTagFromPost_eq]
  · rw [UpdateMultiple_store, UpdateMultiple_store]
  · intro h
    rw [SaveHashTagFromPost_eq, SaveHashTagFromPost_eq]
    exact h
  · intro h
    rw [UpdateMultiple_store, UpdateMultiple_store]
    exact h

/-- C11, witness: `editedPost` names the tag `go` twice; on `tagged` the
association rows after one indexing and after two are the rows there were,
one per tag and post. -/
theorem indexing_twice_eq_once_witness :
    tagged.hashtag.Nodup ∧
    (tagged.HashTagPost.map fun a => (a.HashTag, a.PostId)).Nodup ∧
    (SaveHashTagFromPost tagged editedPost).1.hashtag = [⟨"#go", "p0"⟩] ∧
    (SaveHashTagFromPost (SaveHashTagFromPost tagged editedPost).1 editedPost).1.hashtag =
      [⟨"#go", "p0"⟩] ∧
    (SaveHashTagFromPost (SaveHashTagFromPost tagged editedPost).1 editedPost).1.hashtag.Nodup ∧
    ((UpdateMultiple (UpdateMultiple tagged ["go", "go"] editedPost).1 ["go", "go"]
        editedPost).1.HashTagPost.map fun a => (a.HashTag, a.PostId)).Nodup :=
  have h := indexing_twice_eq_once tagged editedPost ["go", "go"]
  ⟨by decide, by decide, by decide,
    (congrArg (fun t => t.hashtag) h.2.2.1).trans (by decide),
    h.2.2.2.2.1 (by decide), h.2.2.2.2.2 (by decide)⟩

/-- C12, at a failing input: for the token `#Go` the insert statement
`SaveHashTag` builds binds `#go`, lowered and with the hash symbol, and the
insert `UpdateMultiple` builds for it binds `#Go` as given; the store gets
no row. -/
theorem SaveHashTag_binds_hash_symbol :
    (hashtagInsert "#Go" "p1").Values = [["#go", "p1"]] ∧
    (hashtagInsert "#Go" "p1").Args = ["#go", "p1"] ∧
    ((Insert "HashTag").SetMap [("text", "#Go")]).Values = [["#Go"]] ∧
    (SaveHashTag emptyStore "#Go" "p1").1.hashtag = [] := by
  decide

/-- C13, at a failing input: the tag `go` was last used at time 1 and the
post was edited at time 5; `UpdateMultiple` with the tag `go` returns the
error of an insert without values and leaves the last use of `go` at 1. -/
theorem UpdateMultiple_leaves_lastUsed :
    editedPost.EditAt = 5 ∧
    (UpdateMultiple tagged ["go"] editedPost).2.2 =
      some "insert statements must have at least one set of values or select clause" ∧
    (UpdateMultiple tagged ["go"] editedPost).1.HashTag =
      [{ Text := "go", LastUsed := 1 }, { Text := "rust", LastUsed := 1 }] := by
  decide

end HashTagBoardSpec
